import Mathlib

/-!
Verification of the admin_politics data-access layer.

Shallow embedding of the repository's core logic:
* `src/services/policyService.ts` (`PolicyService` namespace): document-to-model
  conversion with default substitution, the static party-color table, and the
  post-query part of `fetchPoliciesWithFilterAndSort` (client-side search
  filtering, `hasMore`, pagination cursor, error propagation).
* `src/utils/dataUtils.ts` (`DataUtils` namespace): the party-color table, party
  document conversion, the module-lifetime party cache (`processPartiesData`,
  `getPartyById`) modelled by explicit state passing, with error swallowing.
* `src/layout/AppContent.tsx` (`Routing` namespace): the declarative route table
  and the redirect chains, over paths represented as lists of segments.

External effects are parameters: the Firestore snapshot enters as an
`Except DbError (List (String × Doc))` value, `Math.random`'s trend pick and
`encodeURIComponent` enter as function arguments.
-/

namespace AdminPolitics

/-- Model of JavaScript `x || d` for a numeric field read from a document:
`undefined` (missing) and `0` are falsy and give the default. -/
def jsOrNum (v : Option ℚ) (d : ℚ) : ℚ :=
  match v with
  | none => d
  | some x => if x = 0 then d else x

/-- Model of JavaScript `x || d` for a string field read from a document:
`undefined` (missing) and the empty string are falsy and give the default. -/
def jsOrStr (v : Option String) (d : String) : String :=
  match v with
  | none => d
  | some s => if s = "" then d else s

/-- Model of JavaScript `Math.round`: round half toward positive infinity. -/
def jsRound (x : ℚ) : ℤ := Rat.floor (x + 1/2)

/-- Model of JavaScript `String.prototype.toLowerCase` (character-wise). -/
def jsToLower (s : String) : String := String.mk (s.data.map Char.toLower)

/-- Model of JavaScript `String.prototype.trim`. -/
def jsTrim (s : String) : String :=
  String.mk (((s.data.dropWhile Char.isWhitespace).reverse.dropWhile
    Char.isWhitespace).reverse)

/-- Whether `needle` occurs at the start of `hay`. -/
def charsStart : List Char → List Char → Bool
  | _, [] => true
  | [], _ :: _ => false
  | c :: cs, n :: ns => c == n && charsStart cs ns

/-- Whether `needle` occurs somewhere in `hay`. -/
def charsSub : List Char → List Char → Bool
  | [], needle => needle.isEmpty
  | c :: cs, needle => charsStart (c :: cs) needle || charsSub cs needle

/-- Model of JavaScript `String.prototype.includes`. -/
def strIncludes (hay needle : String) : Bool := charsSub hay.data needle.data

/-- Opaque error payload of a failed Firestore call. -/
abbrev DbError := String

namespace PolicyService

/-- The `trending` tag of the `Policy` interface. -/
inductive Trending where
  | up
  | down
  | none
deriving DecidableEq

/-- One entry of a raw document's `PoliticalParties` array. -/
structure PartyEntry where
  PartyName : String
  Claims : String
deriving DecidableEq

/-- A raw document of the `policy` collection; every field the converter reads
is optional (`undefined` when absent). -/
structure PolicyDoc where
  SupportRate : Option ℚ := Option.none
  NonSupportRate : Option ℚ := Option.none
  PoliticalParties : Option (List PartyEntry) := Option.none
  Title : Option String := Option.none
  Description : Option String := Option.none
  AffectedFields : Option (List String) := Option.none
  Status : Option String := Option.none
  ProposedDate : Option String := Option.none
  KeyPoints : Option (List String) := Option.none
  EconomicImpact : Option String := Option.none
  LifeImpact : Option String := Option.none
  totalCommentCount : Option ℚ := Option.none
deriving DecidableEq

/-- The `proposingParty` sub-object of the `Policy` interface. -/
structure ProposingParty where
  name : String
  color : String
deriving DecidableEq

/-- One entry of the converted `politicalParties` list. -/
structure PolicyPartyClaim where
  partyName : String
  claims : String
deriving DecidableEq

/-- The `Policy` display model of `policyService.ts`. -/
structure Policy where
  totalCommentCount : Option ℚ
  id : String
  title : String
  description : String
  category : String
  status : String
  proposedDate : String
  supportRate : ℤ
  opposeRate : ℤ
  totalVotes : ℚ
  trending : Trending
  proposingParty : ProposingParty
  affectedFields : List String
  keyPoints : List String
  economicImpact : String
  lifeImpact : String
  politicalParties : List PolicyPartyClaim
deriving DecidableEq

/-- The static party-color object of `policyService.ts` (`partyColors[name]`
falls back to gray via `|| "#808080"`). -/
def getPartyColor (partyName : String) : String :=
  if partyName = "自由民主党" then "#E60012"
  else if partyName = "立憲民主党" then "#FFD900"
  else if partyName = "日本維新の会" then "#FF4500"
  else if partyName = "公明党" then "#00A0E9"
  else if partyName = "国民民主党" then "#009944"
  else if partyName = "日本共産党" then "#A40000"
  else if partyName = "れいわ新選組" then "#800080"
  else if partyName = "社会民主党" then "#800000"
  else "#808080"

/-- Function `convertToPolicyObject` of `policyService.ts`. `randomTrend` stands for the
`trendOptions[Math.floor(Math.random() * 3)]` pick used for mid-range rates. -/
def convertToPolicyObject (randomTrend : Trending) (docId : String)
    (data : PolicyDoc) : Policy :=
  let supportRate := jsOrNum data.SupportRate 50
  let opposeRate := jsOrNum data.NonSupportRate 50
  let totalVotes := supportRate + opposeRate
  let normalizedSupportRate : ℤ :=
    if 0 < totalVotes then jsRound (supportRate / totalVotes * 100) else 50
  let normalizedOpposeRate : ℤ :=
    if 0 < totalVotes then jsRound (opposeRate / totalVotes * 100) else 50
  let trending :=
    if 60 < normalizedSupportRate then Trending.up
    else if normalizedSupportRate < 40 then Trending.down
    else randomTrend
  let politicalParties : List PolicyPartyClaim :=
    match data.PoliticalParties with
    | Option.none => []
    | Option.some l => l.map (fun party => ⟨party.PartyName, party.Claims⟩)
  let proposingParty : ProposingParty :=
    match politicalParties with
    | [] => ⟨"不明", "#808080"⟩
    | first :: _ => ⟨first.partyName, getPartyColor first.partyName⟩
  { id := docId
    title := jsOrStr data.Title "不明なタイトル"
    description := jsOrStr data.Description "説明なし"
    category :=
      jsOrStr (match data.AffectedFields with
               | Option.none => Option.none
               | Option.some l => l.head?) "その他"
    status := jsOrStr data.Status "審議中"
    proposedDate := jsOrStr data.ProposedDate "2023年"
    supportRate := normalizedSupportRate
    opposeRate := normalizedOpposeRate
    totalVotes := totalVotes
    trending := trending
    totalCommentCount := data.totalCommentCount
    proposingParty := proposingParty
    affectedFields := data.AffectedFields.getD []
    keyPoints := data.KeyPoints.getD []
    economicImpact := jsOrStr data.EconomicImpact ""
    lifeImpact := jsOrStr data.LifeImpact ""
    politicalParties := politicalParties }

/-- The `(orderByField, descending)` pair picked by the `switch (sortMethod)`;
unrecognized tags keep the declared default, support rate descending. -/
def sortParams (sortMethod : String) : String × Bool :=
  if sortMethod = "supportDesc" then ("SupportRate", true)
  else if sortMethod = "supportAsc" then ("SupportRate", false)
  else if sortMethod = "opposeDesc" then ("NonSupportRate", true)
  else ("SupportRate", true)

/-- The return shape of `fetchPoliciesWithFilterAndSort`. -/
structure FetchResult where
  policies : List Policy
  lastDocumentId : Option String
  hasMore : Bool
deriving DecidableEq

/-- Lines 208–232 of `policyService.ts`: the processing of the query snapshot.
The category/party filters, order-by, start-after cursor and `limit(limitCount)`
shape the external Firestore query; the snapshot it returns enters here as
`docs` (document id paired with document data, in query order). `randomTrendAt`
supplies the per-document `Math.random` trend pick. -/
def fetchPoliciesCore (randomTrendAt : ℕ → Trending) (searchTerm : String)
    (limitCount : ℕ) (docs : List (String × PolicyDoc)) : FetchResult :=
  let policies0 := docs.mapIdx
    (fun i d => convertToPolicyObject (randomTrendAt i) d.1 d.2)
  let policies :=
    if jsTrim searchTerm ≠ "" then
      let lowerSearchTerm := jsToLower searchTerm
      policies0.filter (fun policy =>
        strIncludes (jsToLower policy.title) lowerSearchTerm ||
        strIncludes (jsToLower policy.description) lowerSearchTerm)
    else policies0
  { policies := policies
    lastDocumentId := (docs.getLast?).map Prod.fst
    hasMore := policies.length == limitCount }

/-- Function `fetchPoliciesWithFilterAndSort` including its `try`/`catch`: a failed
Firestore call is logged and re-thrown, a successful snapshot is processed by
`fetchPoliciesCore`. -/
def fetchPoliciesWithFilterAndSort (randomTrendAt : ℕ → Trending)
    (searchTerm : String) (limitCount : ℕ)
    (dbResult : Except DbError (List (String × PolicyDoc))) :
    Except DbError FetchResult :=
  match dbResult with
  | Except.ok docs =>
    Except.ok (fetchPoliciesCore randomTrendAt searchTerm limitCount docs)
  | Except.error e => Except.error e

end PolicyService

namespace DataUtils

/-- A raw document of the `parties` collection. `name` is read without any
default; every other field the converter reads is optional. -/
structure PartyDoc where
  name : String
  supportCount : Option ℕ := Option.none
  oppositionCount : Option ℕ := Option.none
  memberCount : Option ℕ := Option.none
  majorPolicies : Option (List String) := Option.none
  overview : Option String := Option.none
deriving DecidableEq

/-- The `Party` display model produced by `dataUtils.ts`. -/
structure Party where
  id : String
  name : String
  color : String
  supportRate : ℤ
  opposeRate : ℤ
  totalVotes : ℕ
  members : ℕ
  keyPolicies : List String
  description : String
  image : String
deriving DecidableEq

/-- The `switch (affiliation)` color table of `dataUtils.ts`. -/
def getPartyColor (affiliation : String) : String :=
  if affiliation = "自由民主党" then "#555555"
  else if affiliation = "立憲民主党" then "#4361EE"
  else if affiliation = "公明党" then "#7209B7"
  else if affiliation = "日本維新の会" then "#228B22"
  else if affiliation = "国民民主党" then "#000080"
  else if affiliation = "日本共産党" then "#E63946"
  else if affiliation = "れいわ新選組" then "#F72585"
  else if affiliation = "社民党" then "#118AB2"
  else if affiliation = "参政党" then "#FF4500"
  else "#808080"

/-- Function `getPartyImagePath` of `dataUtils.ts`; `enc` stands for the browser's
`encodeURIComponent`. (The `catch` branch of the source is unreachable: a
template-string concatenation cannot throw.) -/
def getPartyImagePath (enc : String → String) (partyName : String) : String :=
  "/cm_parly_images/" ++ enc partyName ++ ".jpg"

/-- The per-document transformation inside `processPartiesData`'s
`partiesSnapshot.docs.map`. -/
def partyFromDoc (enc : String → String) (docId : String) (data : PartyDoc) :
    Party :=
  let totalVotes : ℕ := data.supportCount.getD 0 + data.oppositionCount.getD 0
  let supportRate : ℤ :=
    if 0 < totalVotes then
      jsRound ((data.supportCount.getD 0 : ℚ) / (totalVotes : ℚ) * 100)
    else 50
  { id := docId
    name := data.name
    color := getPartyColor data.name
    supportRate := supportRate
    opposeRate := 100 - supportRate
    totalVotes := totalVotes
    members := data.memberCount.getD 0
    keyPolicies := data.majorPolicies.getD []
    description := jsOrStr data.overview
      (data.name ++ "の政策と理念に基づいた政党です。")
    image := getPartyImagePath enc data.name }

/-- The module-level mutable `cachedParties` variable, passed explicitly. -/
structure CacheState where
  cachedParties : Option (List Party)
deriving DecidableEq

/-- The state at module load: `let cachedParties: Party[] | null = null`. -/
def initialCache : CacheState := ⟨Option.none⟩

/-- Function `processPartiesData` of `dataUtils.ts` as a state transition. The result is
`(returned list, new cache state, number of Firestore fetches performed)`. A
cache hit returns without fetching; otherwise `getDocs` runs (one fetch): on
success the transformed list is cached and returned, on error the error is
logged and swallowed, `[]` is returned and the cache stays unset. -/
def processPartiesData (enc : String → String)
    (dbResult : Except DbError (List (String × PartyDoc))) (st : CacheState) :
    List Party × CacheState × ℕ :=
  match st.cachedParties with
  | Option.some ps => (ps, st, 0)
  | Option.none =>
    match dbResult with
    | Except.ok docs =>
      let parties := docs.map (fun d => partyFromDoc enc d.1 d.2)
      (parties, ⟨Option.some parties⟩, 1)
    | Except.error _ => ([], st, 1)

/-- Function `getPartyById` of `dataUtils.ts`: populate the cache if absent (dropping
the returned list), then scan `cachedParties || []` for a matching id. -/
def getPartyById (enc : String → String)
    (dbResult : Except DbError (List (String × PartyDoc))) (targetId : String)
    (st : CacheState) : Option Party × CacheState × ℕ :=
  let populated :=
    match st.cachedParties with
    | Option.none =>
      let r := processPartiesData enc dbResult st
      (r.2.1, r.2.2)
    | Option.some _ => (st, 0)
  ((populated.1.cachedParties.getD []).find? (fun party => party.id == targetId),
    populated.1, populated.2)

end DataUtils

namespace Routing

/-- A terminally rendered view of the route table. -/
inductive Page where
  | loginPage
  | adminLayout (partyId : String)
deriving DecidableEq

/-- What one row of the route table renders for a path. -/
inductive RouteTarget where
  | loginPage
  | protectedAdmin (partyId : String)
  | navigate (target : List String)
deriving DecidableEq

/-- The declarative route table of `AppContent.tsx` (lines 14–39) over paths as
segment lists: `/` redirects to `/admin/login`, `/admin/login` renders the
login page, `/admin/party/:partyId/*` renders the guarded admin layout,
`/admin` redirects to `/admin/login`, anything else redirects to `/`. -/
def routeFor : List String → RouteTarget
  | [] => RouteTarget.navigate ["admin", "login"]
  | ["admin", "login"] => RouteTarget.loginPage
  | "admin" :: "party" :: pid :: _ => RouteTarget.protectedAdmin pid
  | ["admin"] => RouteTarget.navigate ["admin", "login"]
  | _ => RouteTarget.navigate []

/-- Modelled from the spec: the `ProtectedAdminRoute` component (imported by
`AppContent.tsx` but not part of the given sources) gates the admin layout
behind the external authentication check — it renders its child when
authenticated and otherwise resolves to the login route. -/
def protectedAdminRoute (authed : Bool) (pid : String) :
    Sum Page (List String) :=
  if authed then Sum.inl (Page.adminLayout pid) else Sum.inr ["admin", "login"]

/-- Resolve a path through the route table, following `Navigate` redirects;
the fuel bounds the redirect chain (two redirects suffice for this table). -/
def resolveRoute (authed : Bool) : ℕ → List String → Option Page
  | 0, _ => Option.none
  | Nat.succ n, path =>
    match routeFor path with
    | RouteTarget.loginPage => Option.some Page.loginPage
    | RouteTarget.protectedAdmin pid =>
      match protectedAdminRoute authed pid with
      | Sum.inl page => Option.some page
      | Sum.inr target => resolveRoute authed n target
    | RouteTarget.navigate target => resolveRoute authed n target

/-- A path is recognized when it matches one of the four explicit route
patterns (everything else falls to the `*` catch-all). -/
def isRecognized : List String → Bool
  | [] => true
  | ["admin", "login"] => true
  | "admin" :: "party" :: _ :: _ => true
  | ["admin"] => true
  | _ => false

end Routing

/-! ### Helper lemmas -/

lemma jsRound_eq_floor (x : ℚ) : jsRound x = ⌊x + 1/2⌋ := by
  rw [jsRound, Rat.floor_def' (x + 1/2), Rat.floor_def]

lemma jsRound_eq_of (x : ℚ) (z : ℤ) (h1 : (z : ℚ) ≤ x + 1/2)
    (h2 : x + 1/2 < (z : ℚ) + 1) : jsRound x = z := by
  rw [jsRound_eq_floor]
  refine Int.floor_eq_iff.mpr ⟨h1, ?_⟩
  exact_mod_cast h2

lemma jsRound_fifty : jsRound (50 : ℚ) = 50 :=
  jsRound_eq_of _ 50 (by norm_num) (by norm_num)

/-- Rounding a rate and its complement to 100 yields a sum of 100 or 101
(101 exactly when the scaled rate lands on a half-integer). -/
lemma jsRound_add_compl (a : ℚ) :
    jsRound a + jsRound (100 - a) = 100 ∨ jsRound a + jsRound (100 - a) = 101 := by
  rw [jsRound_eq_floor, jsRound_eq_floor]
  have h1 : (100 : ℚ) - a + 1/2 = -(a + 1/2) + ((101 : ℤ) : ℚ) := by
    push_cast
    ring
  rw [h1, Int.floor_add_int, Int.floor_neg]
  have h2 : ⌈a + 1/2⌉ ≤ ⌊a + 1/2⌋ + 1 := Int.ceil_le_floor_add_one _
  have h3 : ⌊a + 1/2⌋ ≤ ⌈a + 1/2⌉ := Int.floor_le_ceil _
  omega

/-- When both rate fields default to 50 the normalization divides 50 by 100. -/
lemma convert_default_rates (rnd : PolicyService.Trending) (docId : String)
    (d : PolicyService.PolicyDoc) (h1 : jsOrNum d.SupportRate 50 = 50)
    (h2 : jsOrNum d.NonSupportRate 50 = 50) :
    (PolicyService.convertToPolicyObject rnd docId d).supportRate = 50 ∧
    (PolicyService.convertToPolicyObject rnd docId d).opposeRate = 50 ∧
    (PolicyService.convertToPolicyObject rnd docId d).totalVotes = 100 := by
  simp only [PolicyService.convertToPolicyObject, h1, h2]
  norm_num [jsRound_fifty]

/-! ### C5 — defaults for missing optional fields -/

/-- C5: a policy document with every optional field missing converts to the
documented defaults (title 不明なタイトル, 50/50 normalized rates, and so on),
and a party document with every optional field missing gets member count 0, no
key policies, the generated description, the derived image path, and a 50/50
rate split. -/
theorem c5_missing_field_defaults (rnd : PolicyService.Trending)
    (enc : String → String) (n : String) :
    (PolicyService.convertToPolicyObject rnd "p1" {}).title = "不明なタイトル" ∧
    (PolicyService.convertToPolicyObject rnd "p1" {}).description = "説明なし" ∧
    (PolicyService.convertToPolicyObject rnd "p1" {}).category = "その他" ∧
    (PolicyService.convertToPolicyObject rnd "p1" {}).status = "審議中" ∧
    (PolicyService.convertToPolicyObject rnd "p1" {}).proposedDate = "2023年" ∧
    (PolicyService.convertToPolicyObject rnd "p1" {}).supportRate = 50 ∧
    (PolicyService.convertToPolicyObject rnd "p1" {}).opposeRate = 50 ∧
    (PolicyService.convertToPolicyObject rnd "p1" {}).proposingParty
      = ⟨"不明", "#808080"⟩ ∧
    (PolicyService.convertToPolicyObject rnd "p1" {}).affectedFields = [] ∧
    (PolicyService.convertToPolicyObject rnd "p1" {}).keyPoints = [] ∧
    (PolicyService.convertToPolicyObject rnd "p1" {}).economicImpact = "" ∧
    (PolicyService.convertToPolicyObject rnd "p1" {}).lifeImpact = "" ∧
    (PolicyService.convertToPolicyObject rnd "p1" {}).politicalParties = [] ∧
    (DataUtils.partyFromDoc enc "d1" { name := n }).supportRate = 50 ∧
    (DataUtils.partyFromDoc enc "d1" { name := n }).opposeRate = 50 ∧
    (DataUtils.partyFromDoc enc "d1" { name := n }).totalVotes = 0 ∧
    (DataUtils.partyFromDoc enc "d1" { name := n }).members = 0 ∧
    (DataUtils.partyFromDoc enc "d1" { name := n }).keyPolicies = [] ∧
    (DataUtils.partyFromDoc enc "d1" { name := n }).description
      = n ++ "の政策と理念に基づいた政党です。" ∧
    (DataUtils.partyFromDoc enc "d1" { name := n }).image
      = "/cm_parly_images/" ++ enc n ++ ".jpg" := by
  obtain ⟨hs, ho, _⟩ := convert_default_rates rnd "p1" {} rfl rfl
  refine ⟨rfl, rfl, rfl, rfl, rfl, hs, ho, rfl, rfl, rfl, rfl, rfl, rfl,
    ?_, ?_, rfl, rfl, rfl, rfl, rfl⟩
  · simp [DataUtils.partyFromDoc]
  · simp [DataUtils.partyFromDoc]

/-! ### C9 — falsy (not merely missing) fields trigger the defaults -/

/-- C9: default substitution fires on any falsy value, not only a missing
field: an empty-string `Title` yields 不明なタイトル, a zero `SupportRate` is
replaced by 50 before normalization (so the total is 100, not 50), and an
empty-string party `overview` receives the generated description. -/
theorem c9_falsy_triggers_defaults (rnd : PolicyService.Trending)
    (enc : String → String) (n : String) :
    (PolicyService.convertToPolicyObject rnd "p1" { Title := some "" }).title
      = "不明なタイトル" ∧
    (PolicyService.convertToPolicyObject rnd "p1"
      { SupportRate := some 0 }).supportRate = 50 ∧
    (PolicyService.convertToPolicyObject rnd "p1"
      { SupportRate := some 0 }).totalVotes = 100 ∧
    (DataUtils.partyFromDoc enc "d1" { name := n, overview := some "" }).description
      = n ++ "の政策と理念に基づいた政党です。" := by
  have h0 : jsOrNum (some (0 : ℚ)) 50 = 50 := by simp [jsOrNum]
  obtain ⟨hs, _, ht⟩ := convert_default_rates rnd "p1" { SupportRate := some 0 } h0 rfl
  refine ⟨by simp [PolicyService.convertToPolicyObject, jsOrStr], hs, ht,
    by simp [DataUtils.partyFromDoc, jsOrStr]⟩

/-! ### C6 — the color tables: listed names and the gray default -/

/-- C6: both `getPartyColor` functions return the fixed gray `#808080` for any
party name outside their static tables, and each enumerated name maps to its
documented hex value. -/
theorem c6_getPartyColor_table :
    (∀ s : String,
      s ∉ ["自由民主党", "立憲民主党", "公明党", "日本維新の会", "国民民主党",
           "日本共産党", "れいわ新選組", "社民党", "参政党"] →
      DataUtils.getPartyColor s = "#808080") ∧
    (∀ s : String,
      s ∉ ["自由民主党", "立憲民主党", "日本維新の会", "公明党", "国民民主党",
           "日本共産党", "れいわ新選組", "社会民主党"] →
      PolicyService.getPartyColor s = "#808080") ∧
    (DataUtils.getPartyColor "自由民主党" = "#555555" ∧
     DataUtils.getPartyColor "立憲民主党" = "#4361EE" ∧
     DataUtils.getPartyColor "公明党" = "#7209B7" ∧
     DataUtils.getPartyColor "日本維新の会" = "#228B22" ∧
     DataUtils.getPartyColor "国民民主党" = "#000080" ∧
     DataUtils.getPartyColor "日本共産党" = "#E63946" ∧
     DataUtils.getPartyColor "れいわ新選組" = "#F72585" ∧
     DataUtils.getPartyColor "社民党" = "#118AB2" ∧
     DataUtils.getPartyColor "参政党" = "#FF4500") ∧
    (PolicyService.getPartyColor "自由民主党" = "#E60012" ∧
     PolicyService.getPartyColor "立憲民主党" = "#FFD900" ∧
     PolicyService.getPartyColor "日本維新の会" = "#FF4500" ∧
     PolicyService.getPartyColor "公明党" = "#00A0E9" ∧
     PolicyService.getPartyColor "国民民主党" = "#009944" ∧
     PolicyService.getPartyColor "日本共産党" = "#A40000" ∧
     PolicyService.getPartyColor "れいわ新選組" = "#800080" ∧
     PolicyService.getPartyColor "社会民主党" = "#800000") := by
  refine ⟨?_, ?_, by decide, by decide⟩
  · intro s hs
    simp only [List.mem_cons, List.not_mem_nil, or_false, not_or] at hs
    obtain ⟨h1, h2, h3, h4, h5, h6, h7, h8, h9⟩ := hs
    simp [DataUtils.getPartyColor, h1, h2, h3, h4, h5, h6, h7, h8, h9]
  · intro s hs
    simp only [List.mem_cons, List.not_mem_nil, or_false, not_or] at hs
    obtain ⟨h1, h2, h3, h4, h5, h6, h7, h8⟩ := hs
    simp [PolicyService.getPartyColor, h1, h2, h3, h4, h5, h6, h7, h8]

/-- Witness for C6 at the concrete unlisted name 無所属. -/
theorem c6_witness :
    DataUtils.getPartyColor "無所属" = "#808080" ∧
    PolicyService.getPartyColor "無所属" = "#808080" :=
  ⟨c6_getPartyColor_table.1 "無所属" (by decide),
   c6_getPartyColor_table.2.1 "無所属" (by decide)⟩

/-! ### C10 — the two color tables disagree -/

/-- C10: the two `getPartyColor` definitions are not extensionally equal: they
disagree on 自由民主党, their key sets differ (社民党 and 参政党 only in
`dataUtils`, 社会民主党 only in `policyService`), and consequently a `Party`
record and a `Policy`'s `proposingParty` built for the same party name carry
different colors. -/
theorem c10_color_tables_differ :
    DataUtils.getPartyColor "自由民主党" = "#555555" ∧
    PolicyService.getPartyColor "自由民主党" = "#E60012" ∧
    DataUtils.getPartyColor "自由民主党" ≠ PolicyService.getPartyColor "自由民主党" ∧
    DataUtils.getPartyColor "社民党" = "#118AB2" ∧
    PolicyService.getPartyColor "社民党" = "#808080" ∧
    DataUtils.getPartyColor "参政党" = "#FF4500" ∧
    PolicyService.getPartyColor "参政党" = "#808080" ∧
    PolicyService.getPartyColor "社会民主党" = "#800000" ∧
    DataUtils.getPartyColor "社会民主党" = "#808080" ∧
    (DataUtils.partyFromDoc (fun s => s) "d1" { name := "自由民主党" }).color ≠
      (PolicyService.convertToPolicyObject PolicyService.Trending.none "p1"
        { PoliticalParties := some [⟨"自由民主党", "c"⟩] }).proposingParty.color := by
  decide

/-! ### C2 — do normalized support/oppose rates sum to 100? -/

/-- C2 counterexample: the policy document with `SupportRate = 1` and
`NonSupportRate = 7` has total votes 8 > 0, yet its normalized rates are
round(12.5) = 13 and round(87.5) = 88, which sum to 101, not 100. -/
theorem c2_counterexample :
    0 < (PolicyService.convertToPolicyObject PolicyService.Trending.none "p1"
          { SupportRate := some 1, NonSupportRate := some 7 }).totalVotes ∧
    (PolicyService.convertToPolicyObject PolicyService.Trending.none "p1"
          { SupportRate := some 1, NonSupportRate := some 7 }).supportRate +
      (PolicyService.convertToPolicyObject PolicyService.Trending.none "p1"
          { SupportRate := some 1, NonSupportRate := some 7 }).opposeRate ≠ 100 := by
  have h1 : jsOrNum (some (1 : ℚ)) 50 = 1 := by norm_num [jsOrNum]
  have h7 : jsOrNum (some (7 : ℚ)) 50 = 7 := by norm_num [jsOrNum]
  have hs : jsRound ((1 : ℚ) / (1 + 7) * 100) = 13 :=
    jsRound_eq_of _ 13 (by norm_num) (by norm_num)
  have ho : jsRound ((7 : ℚ) / (1 + 7) * 100) = 88 :=
    jsRound_eq_of _ 88 (by norm_num) (by norm_num)
  have hcond : (0 : ℚ) < 1 + 7 := by norm_num
  constructor
  · simp only [PolicyService.convertToPolicyObject, h1, h7]
    norm_num
  · simp only [PolicyService.convertToPolicyObject, h1, h7]
    rw [if_pos hcond, if_pos hcond, hs, ho]
    decide

/-- C2 amended: a converted party's normalized rates always sum to exactly 100
(the oppose rate is defined as the complement), while a converted policy's
normalized rates sum to 100 or 101 when the total vote count is positive — 101
exactly when the scaled support rate lands on a half-integer, as in the
counterexample. -/
theorem c2_rates_sum (enc : String → String) (docId : String)
    (d : DataUtils.PartyDoc) (rnd : PolicyService.Trending) (pid : String)
    (p : PolicyService.PolicyDoc)
    (hpos : 0 < (PolicyService.convertToPolicyObject rnd pid p).totalVotes) :
    (DataUtils.partyFromDoc enc docId d).supportRate +
      (DataUtils.partyFromDoc enc docId d).opposeRate = 100 ∧
    ((PolicyService.convertToPolicyObject rnd pid p).supportRate +
        (PolicyService.convertToPolicyObject rnd pid p).opposeRate = 100 ∨
     (PolicyService.convertToPolicyObject rnd pid p).supportRate +
        (PolicyService.convertToPolicyObject rnd pid p).opposeRate = 101) := by
  constructor
  · simp only [DataUtils.partyFromDoc]
    ring
  · have ht : 0 < jsOrNum p.SupportRate 50 + jsOrNum p.NonSupportRate 50 := by
      simpa [PolicyService.convertToPolicyObject] using hpos
    have hne : jsOrNum p.SupportRate 50 + jsOrNum p.NonSupportRate 50 ≠ 0 :=
      ne_of_gt ht
    have hcompl : jsOrNum p.NonSupportRate 50 /
          (jsOrNum p.SupportRate 50 + jsOrNum p.NonSupportRate 50) * 100 =
        100 - jsOrNum p.SupportRate 50 /
          (jsOrNum p.SupportRate 50 + jsOrNum p.NonSupportRate 50) * 100 := by
      field_simp
      ring
    simp only [PolicyService.convertToPolicyObject, if_pos ht, hcompl]
    exact jsRound_add_compl _

/-- Witness for C2 amended: a party with 3 support and 1 opposition votes sums
to 100, and the counterexample policy document sums to 100 or 101. -/
theorem c2_witness :
    (DataUtils.partyFromDoc (fun s => s) "d1"
        { name := "党", supportCount := some 3, oppositionCount := some 1 }).supportRate +
      (DataUtils.partyFromDoc (fun s => s) "d1"
        { name := "党", supportCount := some 3, oppositionCount := some 1 }).opposeRate
      = 100 ∧
    ((PolicyService.convertToPolicyObject PolicyService.Trending.none "p1"
        { SupportRate := some 1, NonSupportRate := some 7 }).supportRate +
      (PolicyService.convertToPolicyObject PolicyService.Trending.none "p1"
        { SupportRate := some 1, NonSupportRate := some 7 }).opposeRate = 100 ∨
     (PolicyService.convertToPolicyObject PolicyService.Trending.none "p1"
        { SupportRate := some 1, NonSupportRate := some 7 }).supportRate +
      (PolicyService.convertToPolicyObject PolicyService.Trending.none "p1"
        { SupportRate := some 1, NonSupportRate := some 7 }).opposeRate = 101) :=
  have h := c2_rates_sum (fun s => s) "d1"
    { name := "党", supportCount := some 3, oppositionCount := some 1 }
    PolicyService.Trending.none "p1"
    { SupportRate := some 1, NonSupportRate := some 7 }
    (by norm_num [PolicyService.convertToPolicyObject, jsOrNum])
  ⟨h.1, h.2⟩

/-! ### C1 — what does `hasMore` actually track? -/

/-- C1 counterexample: with `limitCount = 1` and a search term matching nothing,
the query returns exactly 1 raw document, yet `hasMore` is `false` — the flag is
computed from the post-search-filtered page, so it is not equivalent to "exactly
`limitCount` raw documents were returned". -/
theorem c1_counterexample :
    ¬ ((PolicyService.fetchPoliciesCore (fun _ => PolicyService.Trending.none)
          "zzz" 1 [("a", {})]).hasMore = true ↔
       ([("a", ({} : PolicyService.PolicyDoc))]).length = 1) := by
  decide

/-- C1 amended: `hasMore` is `true` iff the page that remains after the
client-side search filter has exactly `limitCount` entries. With a blank search
term this coincides with "exactly `limitCount` raw documents were returned",
and one direction always survives when the backend honors `limit(limitCount)`:
`hasMore = true` forces exactly `limitCount` raw documents — but the converse
fails, as the counterexample shows. -/
theorem c1_hasMore_after_filter (rnd : ℕ → PolicyService.Trending)
    (searchTerm : String) (limitCount : ℕ)
    (docs : List (String × PolicyService.PolicyDoc)) :
    ((PolicyService.fetchPoliciesCore rnd searchTerm limitCount docs).hasMore = true ↔
      (PolicyService.fetchPoliciesCore rnd searchTerm limitCount docs).policies.length
        = limitCount) ∧
    (jsTrim searchTerm = "" →
      ((PolicyService.fetchPoliciesCore rnd searchTerm limitCount docs).hasMore = true ↔
        docs.length = limitCount)) ∧
    (docs.length ≤ limitCount →
      (PolicyService.fetchPoliciesCore rnd searchTerm limitCount docs).hasMore = true →
      docs.length = limitCount) := by
  have hcore : (PolicyService.fetchPoliciesCore rnd searchTerm limitCount docs).hasMore
      = ((PolicyService.fetchPoliciesCore rnd searchTerm limitCount
          docs).policies.length == limitCount) := rfl
  have hmain : (PolicyService.fetchPoliciesCore rnd searchTerm limitCount
      docs).hasMore = true ↔
      (PolicyService.fetchPoliciesCore rnd searchTerm limitCount
        docs).policies.length = limitCount := by
    rw [hcore]
    exact beq_iff_eq
  have hlen : (PolicyService.fetchPoliciesCore rnd searchTerm limitCount
      docs).policies.length ≤ docs.length := by
    simp only [PolicyService.fetchPoliciesCore]
    split
    · exact le_trans (List.length_filter_le _ _) (le_of_eq List.length_mapIdx)
    · exact le_of_eq List.length_mapIdx
  refine ⟨hmain, ?_, ?_⟩
  · intro hblank
    have hnofilter : (PolicyService.fetchPoliciesCore rnd searchTerm limitCount
        docs).policies.length = docs.length := by
      simp only [PolicyService.fetchPoliciesCore, hblank]
      simp [List.length_mapIdx]
    rw [hmain, hnofilter]
  · intro hle hmore
    have := hmain.mp hmore
    omega

/-- Witness for C1 amended at a blank search term: one raw document and
`limitCount = 1` give `hasMore = true`. -/
theorem c1_witness :
    (PolicyService.fetchPoliciesCore (fun _ => PolicyService.Trending.none)
      "" 1 [("a", {})]).hasMore = true :=
  ((c1_hasMore_after_filter (fun _ => PolicyService.Trending.none)
    "" 1 [("a", {})]).2.1 rfl).mpr rfl

/-! ### C3 — the cache makes the second call fetch-free -/

/-- C3: starting from the module-load state, a first call of
`processPartiesData` whose fetch succeeds performs exactly one fetch and stores
the returned list in the cache; an immediately following call — whatever the
database would answer — performs no fetch and returns the cached list, so the
pair performs exactly one fetch. -/
theorem c3_cache_single_fetch (enc : String → String)
    (docs : List (String × DataUtils.PartyDoc))
    (db2 : Except DbError (List (String × DataUtils.PartyDoc))) :
    (DataUtils.processPartiesData enc (Except.ok docs) DataUtils.initialCache).2.2
      = 1 ∧
    (DataUtils.processPartiesData enc (Except.ok docs)
        DataUtils.initialCache).2.1.cachedParties
      = some (DataUtils.processPartiesData enc (Except.ok docs)
          DataUtils.initialCache).1 ∧
    (DataUtils.processPartiesData enc db2
        (DataUtils.processPartiesData enc (Except.ok docs)
          DataUtils.initialCache).2.1).2.2 = 0 ∧
    (DataUtils.processPartiesData enc db2
        (DataUtils.processPartiesData enc (Except.ok docs)
          DataUtils.initialCache).2.1).1
      = (DataUtils.processPartiesData enc (Except.ok docs)
          DataUtils.initialCache).1 ∧
    (DataUtils.processPartiesData enc (Except.ok docs)
        DataUtils.initialCache).2.2 +
      (DataUtils.processPartiesData enc db2
        (DataUtils.processPartiesData enc (Except.ok docs)
          DataUtils.initialCache).2.1).2.2 = 1 :=
  ⟨rfl, rfl, rfl, rfl, rfl⟩

/-! ### C4 — propagate vs. swallow on database failure -/

/-- C4: on a failed database operation, `fetchPoliciesWithFilterAndSort`
re-raises the error to its caller, while `processPartiesData` swallows it and
returns the empty list with the cache still unset — the same return value an
empty `parties` collection produces, so the caller cannot tell the two apart. -/
theorem c4_error_handling (rnd : ℕ → PolicyService.Trending)
    (searchTerm : String) (limitCount : ℕ) (e : DbError)
    (enc : String → String) :
    PolicyService.fetchPoliciesWithFilterAndSort rnd searchTerm limitCount
        (Except.error e) = Except.error e ∧
    DataUtils.processPartiesData enc (Except.error e) DataUtils.initialCache
      = ([], DataUtils.initialCache, 1) ∧
    (DataUtils.processPartiesData enc (Except.error e)
        DataUtils.initialCache).2.1.cachedParties = none ∧
    (DataUtils.processPartiesData enc (Except.error e) DataUtils.initialCache).1
      = (DataUtils.processPartiesData enc (Except.ok []) DataUtils.initialCache).1 :=
  ⟨rfl, rfl, rfl, rfl⟩

/-! ### C7 — `getPartyById`: population on demand and lookup by id -/

/-- C7: with an empty cache, `getPartyById` first triggers one cache-populating
fetch; the result is exactly the first cached record whose `id` field equals
the requested id — `none` iff no cached party carries that id, and any returned
record does carry it. With a populated cache no fetch happens and the same scan
runs against the cache. -/
theorem c7_getPartyById (enc : String → String)
    (docs : List (String × DataUtils.PartyDoc)) (pid : String)
    (st : DataUtils.CacheState) (hst : st.cachedParties = none) :
    (DataUtils.getPartyById enc (Except.ok docs) pid st).2.2 = 1 ∧
    (DataUtils.getPartyById enc (Except.ok docs) pid st).2.1.cachedParties
      = some (docs.map (fun d => DataUtils.partyFromDoc enc d.1 d.2)) ∧
    (DataUtils.getPartyById enc (Except.ok docs) pid st).1
      = (docs.map (fun d => DataUtils.partyFromDoc enc d.1 d.2)).find?
          (fun party => party.id == pid) ∧
    ((DataUtils.getPartyById enc (Except.ok docs) pid st).1 = none ↔
      ∀ party ∈ docs.map (fun d => DataUtils.partyFromDoc enc d.1 d.2),
        party.id ≠ pid) ∧
    (∀ party, (DataUtils.getPartyById enc (Except.ok docs) pid st).1 = some party →
      party.id = pid) ∧
    (∀ (ps : List DataUtils.Party) (someId : String),
      DataUtils.getPartyById enc (Except.ok docs) someId ⟨some ps⟩
        = (ps.find? (fun party => party.id == someId), ⟨some ps⟩, 0)) := by
  obtain ⟨cp⟩ := st
  simp only [DataUtils.CacheState.mk.injEq] at hst
  subst hst
  refine ⟨rfl, rfl, rfl, ?_, ?_, fun ps someId => rfl⟩
  · have h : (DataUtils.getPartyById enc (Except.ok docs) pid
        (⟨none⟩ : DataUtils.CacheState)).1
        = (docs.map (fun d => DataUtils.partyFromDoc enc d.1 d.2)).find?
            (fun party => party.id == pid) := rfl
    rw [h, List.find?_eq_none]
    constructor
    · intro hall party hmem
      simpa using hall party hmem
    · intro hall party hmem
      simpa using hall party hmem
  · intro party hsome
    have h : (docs.map (fun d => DataUtils.partyFromDoc enc d.1 d.2)).find?
        (fun q => q.id == pid) = some party := hsome
    have := List.find?_some h
    simpa using this

/-- Witness for C7: a one-document collection, looked up by its own id from the
initial cache state. -/
theorem c7_witness :
    (DataUtils.getPartyById (fun s => s)
      (Except.ok [("d1", { name := "党" })]) "d1" DataUtils.initialCache).2.2 = 1 :=
  (c7_getPartyById (fun s => s) [("d1", { name := "党" })] "d1"
    DataUtils.initialCache rfl).1

/-! ### C8 — the route table's redirect chains -/

/-- A path matching none of the four explicit route patterns falls to the `*`
catch-all, which redirects to `/`. -/
lemma routeFor_unrecognized (p : List String)
    (h : Routing.isRecognized p = false) :
    Routing.routeFor p = Routing.RouteTarget.navigate [] := by
  unfold Routing.routeFor
  split
  · simp [Routing.isRecognized] at h
  · simp [Routing.isRecognized] at h
  · simp [Routing.isRecognized] at h
  · simp [Routing.isRecognized] at h
  · rfl

/-- C8: `/`, `/admin`, and every unrecognized path resolve through the redirect
chain to the login page regardless of authentication; `/admin/party/:partyId/*`
resolves to the login page when unauthenticated and to the admin layout (with
the matched `partyId`) only when authenticated. -/
theorem c8_routing :
    (∀ authed : Bool,
      Routing.resolveRoute authed 3 [] = some Routing.Page.loginPage) ∧
    (∀ authed : Bool,
      Routing.resolveRoute authed 3 ["admin"] = some Routing.Page.loginPage) ∧
    (∀ (p : List String) (authed : Bool), Routing.isRecognized p = false →
      Routing.resolveRoute authed 3 p = some Routing.Page.loginPage) ∧
    (∀ (pid : String) (rest : List String),
      Routing.resolveRoute false 3 ("admin" :: "party" :: pid :: rest)
        = some Routing.Page.loginPage) ∧
    (∀ (pid : String) (rest : List String),
      Routing.resolveRoute true 3 ("admin" :: "party" :: pid :: rest)
        = some (Routing.Page.adminLayout pid)) := by
  refine ⟨fun authed => rfl, fun authed => rfl, ?_, fun pid rest => rfl,
    fun pid rest => rfl⟩
  intro p authed h
  show Routing.resolveRoute authed (2 + 1) p = some Routing.Page.loginPage
  rw [Routing.resolveRoute, routeFor_unrecognized p h]
  rfl

/-- Witness for C8 at the concrete unrecognized path `/nope`. -/
theorem c8_witness :
    Routing.resolveRoute false 3 ["nope"] = some Routing.Page.loginPage :=
  c8_routing.2.2.1 ["nope"] false rfl

end AdminPolitics
